import Mathlib

/-!
Verification development for the Research-Agent repository.

Shallow embedding of the core components:
- the exception taxonomy (src/src/exceptions.py),
- the blocking research loop `ResearchAgent.research` (src/src/agent.py),
- the provider fallback registry `get_available_tools` (src/src/tools/registry.py),
- the search provider adapters (src/src/tools/{tavily,serpapi,duckduckgo}_search.py),
- the AG-UI event stream adapter (src/src/agui_agent.py),
- the blocking HTTP endpoint wrapper (src/api.py, `research`).

External effects (the LangGraph oracle invocation, search backends, package
availability) are passed in explicitly as environment parameters; raising a
Python exception is modelled as returning `Except.error`.
-/

namespace ResearchAgent

/-! ## Python-level exception values

`PyExc` models arbitrary Python exceptions raised by external libraries
(LangGraph's recursion-limit error, `ImportError`, anything else); only their
`str(...)` rendering is observable to the code under verification. -/

inductive PyExc where
  | graphRecursionError (message : String)
  | importError (message : String)
  | otherException (message : String)
deriving DecidableEq, Repr

def PyExc.str : PyExc → String
  | .graphRecursionError m => m
  | .importError m => m
  | .otherException m => m

/-! ## Exception taxonomy (src/src/exceptions.py)

The Python class hierarchy
`ResearchAgentError > {ConfigurationError, SearchError > SearchProviderUnavailableError,
AgentExecutionError > EmptyResponseError}` is flattened into one inductive;
subclass relations needed by `except` clauses are expressed as predicates. -/

inductive ResearchAgentExc where
  | configurationError (message : String)
  | searchError (message : String) (provider : String) (query : Option String)
  | searchProviderUnavailableError (message : String) (provider : String) (query : Option String)
  | agentExecutionError (message : String) (query : Option String) (iterations : Nat)
  | emptyResponseError (message : String) (query : Option String) (iterations : Nat)
deriving DecidableEq, Repr

/-- Python `repr` of an optional string (`None` or a quoted string; quote
escaping inside the payload is elided). -/
def pyReprOptStr : Option String → String
  | none => "None"
  | some s => "'" ++ s ++ "'"

/-- `ResearchAgentError.__str__`: `message` alone when the details dict is
empty, otherwise `f"{message} | Details: {details}"` with the Python dict
rendering of the details each subclass constructor installs. -/
def strExc : ResearchAgentExc → String
  | .configurationError m => m
  | .searchError m p q =>
      m ++ " | Details: \x7b'provider': '" ++ p ++ "', 'query': " ++ pyReprOptStr q ++ "\x7d"
  | .searchProviderUnavailableError m p q =>
      m ++ " | Details: \x7b'provider': '" ++ p ++ "', 'query': " ++ pyReprOptStr q ++ "\x7d"
  | .agentExecutionError m q its =>
      m ++ " | Details: \x7b'query': " ++ pyReprOptStr q ++ ", 'iterations': " ++ toString its ++ "\x7d"
  | .emptyResponseError m q its =>
      m ++ " | Details: \x7b'query': " ++ pyReprOptStr q ++ ", 'iterations': " ++ toString its ++ "\x7d"

/-- `isinstance(e, EmptyResponseError)` (the first `except` clause in
`ResearchAgent.research`). -/
def isEmptyResponseError : ResearchAgentExc → Bool
  | .emptyResponseError _ _ _ => true
  | _ => false

/-- `isinstance(e, SearchProviderUnavailableError)` (the dedicated
`except` clause in each search adapter). -/
def isSearchProviderUnavailableError : ResearchAgentExc → Bool
  | .searchProviderUnavailableError _ _ _ => true
  | _ => false

/-! ## Spec-side error taxonomy (spec §7)

Modelled from the spec's words: the spec's taxonomy names
`IterationBoundExceeded` and `EmptyResponse` as kinds distinct from the
catch-all `AgentExecutionError`.  `classifyExc` classifies the code's actual
exception values into the spec's kinds; no code exception value maps to
`iterationBoundExceeded` because src/src/exceptions.py defines no such class. -/

inductive SpecErrorKind where
  | configurationError
  | providerUnavailable
  | providerError
  | iterationBoundExceeded
  | emptyResponse
  | agentExecutionError
deriving DecidableEq, Repr

def classifyExc : ResearchAgentExc → SpecErrorKind
  | .configurationError _ => .configurationError
  | .searchProviderUnavailableError _ _ _ => .providerUnavailable
  | .searchError _ _ _ => .providerError
  | .emptyResponseError _ _ _ => .emptyResponse
  | .agentExecutionError _ _ _ => .agentExecutionError

/-- Modelled from the spec: "blank or whitespace-only" terminal answer
(spec §4.3 / §8) — every character is whitespace (vacuously true for the
empty string). -/
def isBlankStr (s : String) : Bool := s.toList.all Char.isWhitespace

/-! ## The blocking research loop (src/src/agent.py)

The LangGraph agent (`self._agent.invoke`) is the opaque oracle: it is
modelled as a function from the configured `recursion_limit` to an outcome —
either a result dict carrying a message list, or a raised exception.  The
`iterationsReached` field on `raise` is ghost state recording how many loop
iterations had completed when the invocation raised; the code never reads it
(the exception value `e` is all that propagates). -/

structure PyMessage where
  content : String
deriving DecidableEq, Repr

structure AgentInvokeResult where
  messages : List PyMessage
deriving DecidableEq, Repr

inductive OracleOutcome where
  | ok (result : AgentInvokeResult)
  | raise (e : PyExc) (iterationsReached : Nat)
deriving DecidableEq, Repr

/-- Python `str(result)` for the result dict, used by `_extract_output` when
the message list is absent or empty (dict repr detail elided to its shape). -/
def strOfInvokeResult (r : AgentInvokeResult) : String :=
  "\x7b'messages': " ++ toString r.messages.length ++ " entries\x7d"

/-- `ResearchAgent._extract_output`: the content of the last message when the
`"messages"` list is present and non-empty, else `str(result)`. -/
def extractOutput (result : AgentInvokeResult) : String :=
  match result.messages.getLast? with
  | some finalMessage => finalMessage.content
  | none => strOfInvokeResult result

/-- `ResearchResult` dataclass. -/
structure ResearchResult where
  content : String
  query : String
  success : Bool
  error : Option String := none
deriving DecidableEq, Repr

/-- `ResearchAgent.research`: invokes the oracle with
`config = {"recursion_limit": max_iterations * 2}`; an empty (`if not output:`)
extracted output raises `EmptyResponseError` which is re-raised unchanged;
any other raised exception `e` is wrapped as
`AgentExecutionError(f"Research agent error: {e}", query=query)` — the
`iterations` keyword is not passed, so it keeps its default `0`. -/
def research (maxIterations : Nat) (query : String) (oracle : Nat → OracleOutcome) :
    Except ResearchAgentExc ResearchResult :=
  match oracle (maxIterations * 2) with
  | .raise e _ =>
      .error (.agentExecutionError ("Research agent error: " ++ e.str) (some query) 0)
  | .ok result =>
      let output := extractOutput result
      if output = "" then
        .error (.emptyResponseError "Agent produced empty output" (some query) 0)
      else
        .ok { content := output, query := query, success := true }

/-! ## Settings (src/src/config.py)

Only the fields the core reads.  `has_tavily` is
`bool(self.tavily_api_key and self.tavily_api_key.startswith("tvly-"))`;
`has_serpapi` is `bool(self.serpapi_api_key and len(self.serpapi_api_key) > 10)`. -/

structure Settings where
  tavilyApiKey : Option String
  serpapiApiKey : Option String
  maxIterations : Nat
  searchMaxResults : Nat
deriving DecidableEq, Repr

def Settings.hasTavily (s : Settings) : Bool :=
  match s.tavilyApiKey with
  | none => false
  | some k => !(k = "") && k.startsWith "tvly-"

def Settings.hasSerpapi (s : Settings) : Bool :=
  match s.serpapiApiKey with
  | none => false
  | some k => !(k = "") && decide (k.length > 10)

/-! ## Provider fallback registry (src/src/tools/registry.py) -/

/-- The five registered tool functions, identified by name. -/
inductive Tool where
  | tavily_search
  | tavily_search_news
  | serpapi_search
  | serpapi_search_news
  | web_search_ddg
deriving DecidableEq, Repr

/-- `get_available_tools`: Tavily tools first when configured, SerpAPI tools
second when configured, DuckDuckGo appended unconditionally last. -/
def getAvailableTools (s : Settings) : List Tool :=
  (if s.hasTavily then [Tool.tavily_search, Tool.tavily_search_news] else []) ++
  (if s.hasSerpapi then [Tool.serpapi_search, Tool.serpapi_search_news] else []) ++
  [Tool.web_search_ddg]

/-- `_TOOL_REGISTRY` lookup, `get_tool_by_name`. -/
def getToolByName (name : String) : Option Tool :=
  if name = "tavily_search" then some Tool.tavily_search
  else if name = "tavily_search_news" then some Tool.tavily_search_news
  else if name = "serpapi_search" then some Tool.serpapi_search
  else if name = "serpapi_search_news" then some Tool.serpapi_search_news
  else if name = "web_search_ddg" then some Tool.web_search_ddg
  else none

/-! ## Search provider adapters (src/src/tools/)

Each adapter's `try:` body may raise (`Except.error`); the adapter wraps the
body in the `except` chain of the source and so returns `Except.ok` of a
string on every path the handlers cover.  A raised value is a
`ResearchAgentExc` (the adapters' own `SearchProviderUnavailableError`) or an
arbitrary library exception `PyExc`. -/

inductive Raised where
  | agentExc (e : ResearchAgentExc)
  | pyExc (e : PyExc)
deriving DecidableEq, Repr

def Raised.str : Raised → String
  | .agentExc e => strExc e
  | .pyExc e => e.str

/-- `except SearchProviderUnavailableError:` clause membership. -/
def Raised.isSPUE : Raised → Bool
  | .agentExc e => isSearchProviderUnavailableError e
  | .pyExc _ => false

/-- `except ImportError:` clause membership. -/
def Raised.isImportError : Raised → Bool
  | .pyExc (.importError _) => true
  | _ => false

/-- Python `s[:n] + ('...' if len(s) > n else '')`. -/
def pyTruncate (s : String) (n : Nat) : String :=
  s.take n ++ (if s.length > n then "..." else "")

/-- Python `sep.join(parts)`. -/
def pyJoin (sep : String) (parts : List String) : String :=
  match parts with
  | [] => ""
  | p :: ps => ps.foldl (fun acc q => acc ++ sep ++ q) p

/-- Python `"=" * 50`. -/
def eqBar : String := String.mk (List.replicate 50 '=')

/-- One Tavily result dict.  `score` holds the `f"{score:.2f}"`-rendered
relevance value (float formatting kept abstract as its rendered text). -/
structure TavilyResult where
  title : String
  content : String
  url : String
  score : String
deriving DecidableEq, Repr

/-- The formatted entry for `tavily_search`'s result loop at 1-based index
`i`. -/
def tavilyEntry (i : Nat) (r : TavilyResult) : String :=
  "[" ++ toString i ++ "] " ++ r.title ++ " (relevance: " ++ r.score ++ ")\n" ++
  "    Content: " ++ pyTruncate r.content 500 ++ "\n" ++
  "    Source: " ++ r.url

/-- The entry list `formatted_results` built by `tavily_search`. -/
def tavilyEntries (results : List TavilyResult) : List String :=
  results.mapIdx (fun i r => tavilyEntry (i + 1) r)

/-- The non-empty-results output of `tavily_search`. -/
def tavilyOutput (query : String) (results : List TavilyResult) : String :=
  "Tavily results for: '" ++ query ++ "'\n" ++ eqBar ++ "\n" ++
  pyJoin "\n\n" (tavilyEntries results)

/-- Environment for one `tavily_search` invocation: the settings snapshot,
whether the `tavily` package imports, and the backend's response as a function
of the `max_results` actually requested. -/
structure TavilyEnv where
  settings : Settings
  tavilyInstalled : Bool
  searchResponse : Nat → Except PyExc (List TavilyResult)

/-- `_get_tavily_client`: raises `SearchProviderUnavailableError` when the key
is not configured, and wraps `ImportError` into
`SearchProviderUnavailableError` when the package is missing. -/
def getTavilyClient (env : TavilyEnv) : Except Raised Unit :=
  if !env.settings.hasTavily then
    .error (.agentExc (.searchProviderUnavailableError
      "Tavily API key not configured" "tavily" none))
  else if !env.tavilyInstalled then
    .error (.agentExc (.searchProviderUnavailableError
      "Tavily package not installed. Run: pip install tavily-python" "tavily" none))
  else
    .ok ()

/-- The `try:` body of `tavily_search` (after the clamp of `max_results`). -/
def tavilySearchTry (env : TavilyEnv) (query : String) (maxResults : Nat) :
    Except Raised String :=
  match getTavilyClient env with
  | .error e => .error e
  | .ok _ =>
    match env.searchResponse maxResults with
    | .error e => .error (.pyExc e)
    | .ok results =>
        if results = [] then
          .ok ("No results found for: '" ++ query ++ "'. Try rephrasing your search query.")
        else
          .ok (tavilyOutput query results)

/-- `tavily_search`: clamps `max_results` to the configured cap, runs the
body, and absorbs every raise through its two `except` clauses. -/
def tavilySearch (env : TavilyEnv) (query : String) (maxResults : Nat) :
    Except Raised String :=
  match tavilySearchTry env query (min maxResults env.settings.searchMaxResults) with
  | .ok s => .ok s
  | .error e =>
      if e.isSPUE then
        .ok "Tavily API key not configured. Use serpapi_search or web_search_ddg instead."
      else
        .ok ("Tavily search error: " ++ e.str ++
          ". Try using serpapi_search or web_search_ddg instead.")

/-- One SerpAPI organic result dict. -/
structure SerpResult where
  title : String
  snippet : String
  link : String
deriving DecidableEq, Repr

/-- The formatted entry for `serpapi_search`'s result loop at 1-based index
`i`. -/
def serpapiEntry (i : Nat) (r : SerpResult) : String :=
  "[" ++ toString i ++ "] " ++ r.title ++ "\n" ++
  "    Summary: " ++ r.snippet ++ "\n" ++
  "    Source: " ++ r.link

/-- The entry list `formatted_results` built by `serpapi_search`: the source
iterates over `organic_results[:max_results]`. -/
def serpapiEntries (maxResults : Nat) (organic : List SerpResult) : List String :=
  (organic.take maxResults).mapIdx (fun i r => serpapiEntry (i + 1) r)

/-- The non-empty-results output of `serpapi_search`. -/
def serpapiOutput (query : String) (maxResults : Nat) (organic : List SerpResult) : String :=
  "Google (SerpAPI) results for: '" ++ query ++ "'\n" ++ eqBar ++ "\n" ++
  pyJoin "\n\n" (serpapiEntries maxResults organic)

/-- Environment for one `serpapi_search` invocation. -/
structure SerpapiEnv where
  settings : Settings
  serpapiInstalled : Bool
  searchResponse : Nat → Except PyExc (List SerpResult)

/-- The `try:` body of `serpapi_search`: the import may raise `ImportError`,
`_get_serpapi_params` raises `SearchProviderUnavailableError` when the key is
not configured, and the backend call may raise anything. -/
def serpapiSearchTry (env : SerpapiEnv) (query : String) (maxResults : Nat) :
    Except Raised String :=
  if !env.serpapiInstalled then
    .error (.pyExc (.importError "No module named 'serpapi'"))
  else if !env.settings.hasSerpapi then
    .error (.agentExc (.searchProviderUnavailableError
      "SerpAPI key not configured" "serpapi" none))
  else
    match env.searchResponse maxResults with
    | .error e => .error (.pyExc e)
    | .ok organicResults =>
        if organicResults = [] then
          .ok ("No results found for: '" ++ query ++ "'. Try rephrasing your search query.")
        else
          .ok (serpapiOutput query maxResults organicResults)

/-- `serpapi_search`: clamps `max_results` to the configured cap and absorbs
every raise through its three `except` clauses
(`ImportError`, `SearchProviderUnavailableError`, `Exception`). -/
def serpapiSearch (env : SerpapiEnv) (query : String) (maxResults : Nat) :
    Except Raised String :=
  match serpapiSearchTry env query (min maxResults env.settings.searchMaxResults) with
  | .ok s => .ok s
  | .error e =>
      if e.isImportError then
        .ok "SerpAPI package not installed. Run: pip install google-search-results"
      else if e.isSPUE then
        .ok "SerpAPI key not configured. Use tavily_search or web_search_ddg instead."
      else
        .ok ("SerpAPI search error: " ++ e.str ++
          ". Try using tavily_search or web_search_ddg instead.")

/-- One DuckDuckGo result dict. -/
structure DdgResult where
  title : String
  body : String
  href : String
deriving DecidableEq, Repr

/-- The formatted entry for `web_search_ddg`'s result loop at 1-based index
`i`. -/
def ddgEntry (i : Nat) (r : DdgResult) : String :=
  "[" ++ toString i ++ "] " ++ r.title ++ "\n" ++
  "    Summary: " ++ r.body ++ "\n" ++
  "    Source: " ++ r.href

/-- The entry list `formatted_results` built by `web_search_ddg`. -/
def ddgEntries (results : List DdgResult) : List String :=
  results.mapIdx (fun i r => ddgEntry (i + 1) r)

/-- The non-empty-results output of `web_search_ddg`. -/
def ddgOutput (query : String) (results : List DdgResult) : String :=
  "DuckDuckGo results for: '" ++ query ++ "'\n" ++ eqBar ++ "\n" ++
  pyJoin "\n\n" (ddgEntries results)

/-- Environment for one `web_search_ddg` invocation: whether either DDG
package imports, and the backend's response as a function of the requested
`max_results`. -/
structure DdgEnv where
  settings : Settings
  ddgsInstalled : Bool
  textResponse : Nat → Except PyExc (List DdgResult)

/-- The `try:` body of `web_search_ddg`: `_get_ddgs_client` raises
`ImportError` when no DDG package is installed; the backend call may raise
anything. -/
def ddgSearchTry (env : DdgEnv) (query : String) (maxResults : Nat) :
    Except Raised String :=
  if !env.ddgsInstalled then
    .error (.pyExc (.importError
      "DuckDuckGo search package not installed. Run: pip install ddgs"))
  else
    match env.textResponse maxResults with
    | .error e => .error (.pyExc e)
    | .ok results =>
        if results = [] then
          .ok ("No results found for: '" ++ query ++ "'. Try rephrasing your search query.")
        else
          .ok (ddgOutput query results)

/-- `web_search_ddg`: clamps `max_results` to the configured cap and absorbs
every raise through its two `except` clauses (`ImportError`, `Exception`). -/
def ddgSearch (env : DdgEnv) (query : String) (maxResults : Nat) :
    Except Raised String :=
  match ddgSearchTry env query (min maxResults env.settings.searchMaxResults) with
  | .ok s => .ok s
  | .error e =>
      if e.isImportError then
        .ok ("DuckDuckGo search unavailable: " ++ e.str)
      else
        .ok ("DuckDuckGo search error: " ++ e.str ++
          ". Try using tavily_search or serpapi_search instead.")

/-! ## AG-UI event stream adapter (src/src/agui_agent.py)

`agui_stream_generator` and `agui_stream_sync` share one body: emit
`RUN_STARTED` and `TEXT_MESSAGE_START`, run the blocking research call, chunk
the completed report into 50-character slices, emit one
`TEXT_MESSAGE_CONTENT` per chunk in order, then `TEXT_MESSAGE_END` and
`RUN_FINISHED`; any raise inside the `try:` yields exactly one `RUN_ERROR`
with code `"AGENT_ERROR"` and the generator ends.  The emitted JSON lines are
modelled structurally as `AGUIEvent` values in emission order. -/

inductive AGUIEvent where
  | runStarted (runId : String) (timestamp : String)
  | textMessageStart (messageId : String) (role : String)
  | textMessageContent (messageId : String) (delta : String)
  | textMessageEnd (messageId : String)
  | runFinished (runId : String) (timestamp : String)
  | runError (runId : String) (message : String) (code : String)
deriving DecidableEq, Repr

/-- The `type` tag `create_agui_event` serializes for each event. -/
def AGUIEvent.typeTag : AGUIEvent → String
  | .runStarted _ _ => "RUN_STARTED"
  | .textMessageStart _ _ => "TEXT_MESSAGE_START"
  | .textMessageContent _ _ => "TEXT_MESSAGE_CONTENT"
  | .textMessageEnd _ => "TEXT_MESSAGE_END"
  | .runFinished _ _ => "RUN_FINISHED"
  | .runError _ _ _ => "RUN_ERROR"

def AGUIEvent.isContent : AGUIEvent → Bool
  | .textMessageContent _ _ => true
  | _ => false

def AGUIEvent.isRunError : AGUIEvent → Bool
  | .runError _ _ _ => true
  | _ => false

def AGUIEvent.isMessageEnd : AGUIEvent → Bool
  | .textMessageEnd _ => true
  | _ => false

def AGUIEvent.isRunFinished : AGUIEvent → Bool
  | .runFinished _ _ => true
  | _ => false

/-- The chunking loop `for i in range(0, len(content), chunk_size):
chunk = content[i:i + chunk_size]`, over the character list of the content.
The `chunkSize = 0` guard is only there to make the function total; Python's
`range` would reject step 0 and the source always passes 50. -/
def chunkList (chunkSize : Nat) (l : List Char) : List (List Char) :=
  if chunkSize = 0 then []
  else
    match l with
    | [] => []
    | x :: xs => (x :: xs).take chunkSize :: chunkList chunkSize ((x :: xs).drop chunkSize)
termination_by l.length
decreasing_by
  simp only [List.length_drop, List.length_cons]
  omega

/-- `chunk_size = 50` as hard-coded in both stream generators. -/
def streamChunkSize : Nat := 50

/-- The `TEXT_MESSAGE_CONTENT` events for one completed report. -/
def chunkEvents (messageId : String) (content : String) : List AGUIEvent :=
  (chunkList streamChunkSize content.toList).map
    (fun c => AGUIEvent.textMessageContent messageId (String.mk c))

/-- The event sequence of `agui_stream_generator` / `agui_stream_sync`, as a
function of the identifiers, the two timestamps taken at the emission points,
and the outcome of `create_agent(); agent.research(query)` inside the
`try:`. -/
def aguiStream (runId messageId ts1 ts2 : String)
    (res : Except ResearchAgentExc ResearchResult) : List AGUIEvent :=
  [AGUIEvent.runStarted runId ts1,
   AGUIEvent.textMessageStart messageId "assistant"] ++
  match res with
  | .ok result =>
      chunkEvents messageId result.content ++
      [AGUIEvent.textMessageEnd messageId,
       AGUIEvent.runFinished runId ts2]
  | .error e =>
      [AGUIEvent.runError runId (strExc e) "AGENT_ERROR"]

/-! ## Blocking HTTP endpoint (src/api.py, `research`)

The endpoint calls `agent.research(request.query)`; `ResearchAgentError`
values are caught and turned into a `ResearchResponse` with `success=False`
and `error=str(e)`; any other exception becomes a raised
`HTTPException(500)`. -/

structure ResearchResponse where
  success : Bool
  query : String
  report : Option String := none
  error : Option String := none
deriving DecidableEq, Repr

structure HTTPException where
  statusCode : Nat
  detail : String
deriving DecidableEq, Repr

/-- The `/research` endpoint body, as a function of the outcome of the
`agent.research` call (a result, a raised `ResearchAgentError`, or a raised
non-`ResearchAgentError` exception). -/
def researchEndpoint (query : String)
    (agentOutcome : Except (Sum ResearchAgentExc PyExc) ResearchResult) :
    Except HTTPException ResearchResponse :=
  match agentOutcome with
  | .ok result =>
      .ok { success := result.success, query := result.query,
            report := some result.content, error := none }
  | .error (.inl e) =>
      .ok { success := false, query := query, report := none, error := some (strExc e) }
  | .error (.inr e) =>
      .error { statusCode := 500, detail := e.str }

/-! ## Helper lemmas -/

theorem chunkList_nil (n : Nat) : chunkList n [] = [] := by
  rw [chunkList]
  split <;> rfl

theorem chunkList_cons (n : Nat) (hn : 0 < n) (x : Char) (xs : List Char) :
    chunkList n (x :: xs) =
      (x :: xs).take n :: chunkList n ((x :: xs).drop n) := by
  rw [chunkList]
  simp only [Nat.pos_iff_ne_zero.mp hn, if_false]

theorem chunkList_join (n : Nat) (hn : 0 < n) (l : List Char) :
    (chunkList n l).flatten = l := by
  match l with
  | [] => rw [chunkList_nil]; rfl
  | x :: xs =>
    rw [chunkList_cons n hn, List.flatten_cons, chunkList_join n hn ((x :: xs).drop n)]
    exact List.take_append_drop n (x :: xs)
termination_by l.length
decreasing_by
  simp only [List.length_drop, List.length_cons]
  omega

theorem chunkList_chunk_bounds (n : Nat) (hn : 0 < n) (l : List Char) :
    ∀ c ∈ chunkList n l, c ≠ [] ∧ c.length ≤ n := by
  match l with
  | [] => rw [chunkList_nil]; intro c hc; cases hc
  | x :: xs =>
    rw [chunkList_cons n hn]
    intro c hc
    rcases List.mem_cons.mp hc with h | h
    · subst h
      constructor
      · obtain ⟨m, rfl⟩ := Nat.exists_eq_succ_of_ne_zero (Nat.pos_iff_ne_zero.mp hn)
        simp [List.take_cons]
      · simp
    · exact chunkList_chunk_bounds n hn ((x :: xs).drop n) c h
termination_by l.length
decreasing_by
  simp only [List.length_drop, List.length_cons]
  omega

theorem chunkList_nonfinal_full (n : Nat) (hn : 0 < n) (l : List Char) :
    ∀ i, i + 1 < (chunkList n l).length → ((chunkList n l).getD i []).length = n := by
  match l with
  | [] => rw [chunkList_nil]; intro i hi; simp at hi
  | x :: xs =>
    rw [chunkList_cons n hn]
    intro i hi
    match i with
    | 0 =>
      simp only [List.getD_cons_zero, List.length_take, List.length_cons]
      simp only [List.length_cons] at hi
      have hne : chunkList n ((x :: xs).drop n) ≠ [] := by
        intro h
        rw [h] at hi
        simp at hi
      have hdrop : (x :: xs).drop n ≠ [] := by
        intro h
        rw [h, chunkList_nil] at hne
        exact hne rfl
      have hlt : n < (x :: xs).length := by
        by_contra hle
        exact hdrop (List.drop_eq_nil_of_le (Nat.le_of_not_lt hle))
      simp only [List.length_cons] at hlt
      omega
    | j + 1 =>
      simp only [List.getD_cons_succ]
      exact chunkList_nonfinal_full n hn ((x :: xs).drop n) j (by simpa using hi)
termination_by l.length
decreasing_by
  simp only [List.length_drop, List.length_cons]
  omega

theorem foldr_mk_append (L : List (List Char)) :
    L.foldr (fun c acc => String.mk c ++ acc) "" = String.mk L.flatten := by
  induction L with
  | nil => rfl
  | cons c cs ih =>
    simp only [List.foldr_cons, List.flatten_cons, ih]
    rfl

/-- Concatenating the `delta` payloads of the content events of one report. -/
def AGUIEvent.delta : AGUIEvent → String
  | .textMessageContent _ d => d
  | _ => ""

theorem chunkEvents_concat (messageId content : String) :
    (chunkEvents messageId content).foldr (fun ev acc => ev.delta ++ acc) "" = content := by
  unfold chunkEvents
  rw [List.foldr_map]
  have h1 : (chunkList streamChunkSize content.toList).foldr
      (fun c acc => (AGUIEvent.textMessageContent messageId (String.mk c)).delta ++ acc) "" =
      (chunkList streamChunkSize content.toList).foldr
      (fun c acc => String.mk c ++ acc) "" := by
    rfl
  rw [h1, foldr_mk_append, chunkList_join streamChunkSize (by decide)]
  rfl

/-! ## Claim theorems -/

/-- C1 counterexample: the oracle's terminal answer `" "` is whitespace-only,
yet `research` returns a success result whose report content is the
whitespace-only string `" "` — the `if not output:` check only catches the
empty string, so the claimed `EmptyResponse` failure does not happen. -/
theorem C1_counterexample :
    research 25 "q" (fun _ => OracleOutcome.ok ⟨[⟨" "⟩]⟩) =
      .ok { content := " ", query := "q", success := true, error := none } ∧
    isBlankStr " " = true ∧ " " ≠ "" := by
  refine ⟨rfl, by decide, by decide⟩

/-- C1 (amended): if the oracle's terminal answer is the empty string, the
blocking research operation fails with `EmptyResponseError` and never returns
a success result whose report content is the empty string; a whitespace-only
but non-empty terminal answer is NOT rejected and is returned as a success. -/
theorem C1_empty_terminal_answer (maxIterations : Nat) (query : String)
    (oracle : Nat → OracleOutcome) :
    (∀ result, oracle (maxIterations * 2) = OracleOutcome.ok result →
      extractOutput result = "" →
      research maxIterations query oracle =
        .error (.emptyResponseError "Agent produced empty output" (some query) 0)) ∧
    (∀ r, research maxIterations query oracle = .ok r → r.content ≠ "") := by
  constructor
  · intro result hres hout
    unfold research
    rw [hres]
    simp [hout]
  · intro r hr
    unfold research at hr
    cases hor : oracle (maxIterations * 2) with
    | raise e k => rw [hor] at hr; cases hr
    | ok result =>
        rw [hor] at hr
        simp only at hr
        by_cases hout : extractOutput result = ""
        · rw [if_pos hout] at hr; cases hr
        · rw [if_neg hout] at hr
          cases hr
          exact hout

/-- C1 witness. -/
theorem C1_empty_terminal_answer_witness :
    research 25 "q" (fun _ => OracleOutcome.ok ⟨[⟨""⟩]⟩) =
      .error (.emptyResponseError "Agent produced empty output" (some "q") 0) :=
  (C1_empty_terminal_answer 25 "q" (fun _ => OracleOutcome.ok ⟨[⟨""⟩]⟩)).1 ⟨[⟨""⟩]⟩ rfl rfl

/-- C2 counterexample: with `max_iterations = 25` the oracle is budgeted 50
steps; when it raises its recursion-limit error the failure surfaced is the
catch-all `AgentExecutionError` (the repository defines no
`IterationBoundExceeded` exception class), so under the spec's taxonomy the
failure kind is `agentExecutionError`, not `iterationBoundExceeded`. -/
theorem C2_counterexample :
    research 25 "q" (fun limit =>
        OracleOutcome.raise (PyExc.graphRecursionError
          ("Recursion limit of " ++ toString limit ++
            " reached without hitting a stop condition")) 25) =
      .error (.agentExecutionError
        "Research agent error: Recursion limit of 50 reached without hitting a stop condition"
        (some "q") 0) ∧
    classifyExc (.agentExecutionError
        "Research agent error: Recursion limit of 50 reached without hitting a stop condition"
        (some "q") 0) ≠ SpecErrorKind.iterationBoundExceeded := by
  exact ⟨rfl, by decide⟩

/-- C2 (amended): the loop configures the oracle's internal step budget to
exactly `max_iterations * 2` (the result depends only on the oracle's
behaviour at that budget), and when the oracle raises on exceeding the bound
the request fails — wrapped as the catch-all `AgentExecutionError`, never a
success result carrying a silently truncated answer. -/
theorem C2_iteration_bound (maxIterations : Nat) (query : String)
    (oracle oracle2 : Nat → OracleOutcome) :
    (oracle (maxIterations * 2) = oracle2 (maxIterations * 2) →
      research maxIterations query oracle = research maxIterations query oracle2) ∧
    (∀ e k, oracle (maxIterations * 2) = OracleOutcome.raise e k →
      research maxIterations query oracle =
        .error (.agentExecutionError ("Research agent error: " ++ e.str) (some query) 0) ∧
      ∀ r, research maxIterations query oracle ≠ .ok r) := by
  constructor
  · intro h
    unfold research
    rw [h]
  · intro e k h
    constructor
    · unfold research
      rw [h]
    · intro r hr
      unfold research at hr
      rw [h] at hr
      cases hr

/-- C2 witness. -/
theorem C2_iteration_bound_witness :
    research 3 "q" (fun _ => OracleOutcome.raise (PyExc.graphRecursionError "limit hit") 3) =
      .error (.agentExecutionError "Research agent error: limit hit" (some "q") 0) :=
  ((C2_iteration_bound 3 "q"
      (fun _ => OracleOutcome.raise (PyExc.graphRecursionError "limit hit") 3)
      (fun _ => OracleOutcome.raise (PyExc.graphRecursionError "limit hit") 3)).2
    (PyExc.graphRecursionError "limit hit") 3 rfl).1

/-- C7 counterexample: the oracle invocation raises after 3 completed loop
iterations, but the wrapped `AgentExecutionError` carries `iterations = 0`
(the source never passes the `iterations` keyword, so the constructor default
`0` is stored), not the iteration count actually reached. -/
theorem C7_counterexample :
    research 25 "q" (fun _ => OracleOutcome.raise (PyExc.otherException "boom") 3) =
      .error (.agentExecutionError "Research agent error: boom" (some "q") 0) ∧
    (0 : Nat) ≠ 3 := by
  exact ⟨rfl, by decide⟩

/-- C7 (amended): whenever the oracle invocation raises, the blocking research
operation wraps the failure as `AgentExecutionError` carrying the original
query; the `iterations` field is the constructor default `0` regardless of
the iteration count `k` actually reached at the time of failure. -/
theorem C7_wraps_with_query (maxIterations : Nat) (query : String)
    (oracle : Nat → OracleOutcome) (e : PyExc) (k : Nat) :
    oracle (maxIterations * 2) = OracleOutcome.raise e k →
      research maxIterations query oracle =
        .error (.agentExecutionError ("Research agent error: " ++ e.str) (some query) 0) := by
  intro h
  unfold research
  rw [h]

/-- C7 witness. -/
theorem C7_wraps_with_query_witness :
    research 25 "myquery" (fun _ => OracleOutcome.raise (PyExc.otherException "net down") 7) =
      .error (.agentExecutionError "Research agent error: net down" (some "myquery") 0) :=
  C7_wraps_with_query 25 "myquery"
    (fun _ => OracleOutcome.raise (PyExc.otherException "net down") 7)
    (PyExc.otherException "net down") 7 rfl

/-- C3: the streaming adapter splits the terminal report into consecutive
fixed-size chunks — every chunk is non-empty and at most `chunkSize` long,
every chunk except possibly the final one is exactly `chunkSize` long, and
the chunks concatenate back to the original content — and emits one
`TEXT_MESSAGE_CONTENT` event per chunk in original order, so concatenating
the emitted deltas (with the hard-coded chunk size 50) reproduces the report
text exactly. -/
theorem C3_chunking (chunkSize : Nat) (h : 0 < chunkSize) :
    (∀ content : List Char,
      (chunkList chunkSize content).flatten = content ∧
      (∀ c ∈ chunkList chunkSize content, c ≠ [] ∧ c.length ≤ chunkSize) ∧
      (∀ i, i + 1 < (chunkList chunkSize content).length →
        ((chunkList chunkSize content).getD i []).length = chunkSize)) ∧
    (∀ messageId content : String,
      (chunkEvents messageId content).length =
        (chunkList streamChunkSize content.toList).length ∧
      (∀ ev ∈ chunkEvents messageId content,
        ev = AGUIEvent.textMessageContent messageId ev.delta) ∧
      (chunkEvents messageId content).foldr (fun ev acc => ev.delta ++ acc) "" = content) := by
  constructor
  · intro content
    exact ⟨chunkList_join chunkSize h content,
      chunkList_chunk_bounds chunkSize h content,
      chunkList_nonfinal_full chunkSize h content⟩
  · intro messageId content
    refine ⟨?_, ?_, chunkEvents_concat messageId content⟩
    · unfold chunkEvents
      exact List.length_map _ _
    · intro ev hev
      unfold chunkEvents at hev
      obtain ⟨c, _, rfl⟩ := List.mem_map.mp hev
      rfl

/-- C3 witness. -/
theorem C3_chunking_witness :
    (chunkList 50 "report text".toList).flatten = "report text".toList :=
  (((C3_chunking 50 (by decide)).1) "report text".toList).1

/-- C4: for every configuration snapshot, the registry's ordered tool list
places the Tavily tools first (present iff the Tavily credential is
configured), the SerpAPI tools second (present iff the SerpAPI credential is
configured), and the free DuckDuckGo tool last and unconditionally; the list
is non-empty for every configuration, and with zero optional credentials it
is exactly the DuckDuckGo singleton. -/
theorem C4_registry_order (s : Settings) :
    getAvailableTools s ≠ [] ∧
    (getAvailableTools s).getLast? = some Tool.web_search_ddg ∧
    Tool.web_search_ddg ∈ getAvailableTools s ∧
    (Tool.tavily_search ∈ getAvailableTools s ↔ s.hasTavily = true) ∧
    (Tool.tavily_search_news ∈ getAvailableTools s ↔ s.hasTavily = true) ∧
    (Tool.serpapi_search ∈ getAvailableTools s ↔ s.hasSerpapi = true) ∧
    (Tool.serpapi_search_news ∈ getAvailableTools s ↔ s.hasSerpapi = true) ∧
    (s.hasTavily = true →
      (getAvailableTools s).take 2 = [Tool.tavily_search, Tool.tavily_search_news]) ∧
    (s.hasTavily = false → s.hasSerpapi = true →
      (getAvailableTools s).take 2 = [Tool.serpapi_search, Tool.serpapi_search_news]) ∧
    (s.hasTavily = true → s.hasSerpapi = true →
      getAvailableTools s =
        [Tool.tavily_search, Tool.tavily_search_news,
         Tool.serpapi_search, Tool.serpapi_search_news, Tool.web_search_ddg]) ∧
    (s.hasTavily = false → s.hasSerpapi = false →
      getAvailableTools s = [Tool.web_search_ddg]) := by
  cases h1 : s.hasTavily <;> cases h2 : s.hasSerpapi <;>
    simp [getAvailableTools, h1, h2]

/-- C4 witness: the zero-credential configuration still yields the non-empty
DuckDuckGo-only tool list. -/
theorem C4_registry_order_witness :
    getAvailableTools ⟨none, none, 25, 5⟩ = [Tool.web_search_ddg] :=
  (C4_registry_order ⟨none, none, 25, 5⟩).2.2.2.2.2.2.2.2.2.2 rfl rfl

/-- C5: on the happy path the stream is exactly `RUN_STARTED`,
`TEXT_MESSAGE_START`, zero or more `TEXT_MESSAGE_CONTENT`,
`TEXT_MESSAGE_END`, `RUN_FINISHED` in that order with no `RUN_ERROR`; if the
underlying loop invocation raises, the stream is exactly `RUN_STARTED`,
`TEXT_MESSAGE_START` followed by a single final `RUN_ERROR` with code
`"AGENT_ERROR"` — no `TEXT_MESSAGE_END` or `RUN_FINISHED` ever follows an
error. -/
theorem C5_event_order (runId messageId ts1 ts2 : String)
    (res : Except ResearchAgentExc ResearchResult) :
    (∀ r, res = .ok r →
      aguiStream runId messageId ts1 ts2 res =
        [AGUIEvent.runStarted runId ts1,
         AGUIEvent.textMessageStart messageId "assistant"] ++
        chunkEvents messageId r.content ++
        [AGUIEvent.textMessageEnd messageId, AGUIEvent.runFinished runId ts2] ∧
      (∀ ev ∈ chunkEvents messageId r.content, ev.isContent = true) ∧
      (∀ ev ∈ aguiStream runId messageId ts1 ts2 res, ev.isRunError = false)) ∧
    (∀ e, res = .error e →
      aguiStream runId messageId ts1 ts2 res =
        [AGUIEvent.runStarted runId ts1,
         AGUIEvent.textMessageStart messageId "assistant",
         AGUIEvent.runError runId (strExc e) "AGENT_ERROR"] ∧
      ((aguiStream runId messageId ts1 ts2 res).filter (fun ev => ev.isRunError)).length = 1 ∧
      (aguiStream runId messageId ts1 ts2 res).getLast? =
        some (AGUIEvent.runError runId (strExc e) "AGENT_ERROR") ∧
      ∀ ev ∈ aguiStream runId messageId ts1 ts2 res,
        ev.isMessageEnd = false ∧ ev.isRunFinished = false) := by
  constructor
  · rintro r rfl
    refine ⟨rfl, ?_, ?_⟩
    · intro ev hev
      unfold chunkEvents at hev
      obtain ⟨c, _, rfl⟩ := List.mem_map.mp hev
      rfl
    · intro ev hev
      simp only [aguiStream, List.cons_append, List.nil_append, List.mem_cons,
        List.mem_append, List.not_mem_nil, or_false] at hev
      rcases hev with rfl | rfl | h | rfl | rfl
      · rfl
      · rfl
      · unfold chunkEvents at h
        obtain ⟨c, _, rfl⟩ := List.mem_map.mp h
        rfl
      · rfl
      · rfl
  · rintro e rfl
    refine ⟨rfl, rfl, rfl, ?_⟩
    intro ev hev
    simp only [aguiStream, List.cons_append, List.nil_append, List.mem_cons,
      List.not_mem_nil, or_false] at hev
    rcases hev with rfl | rfl | rfl
    · exact ⟨rfl, rfl⟩
    · exact ⟨rfl, rfl⟩
    · exact ⟨rfl, rfl⟩

/-- C5 witness. -/
theorem C5_event_order_witness :
    aguiStream "r1" "m1" "t1" "t2"
        (.error (ResearchAgentExc.agentExecutionError "Research agent error: boom" (some "q") 0)) =
      [AGUIEvent.runStarted "r1" "t1",
       AGUIEvent.textMessageStart "m1" "assistant",
       AGUIEvent.runError "r1"
         (strExc (ResearchAgentExc.agentExecutionError "Research agent error: boom" (some "q") 0))
         "AGENT_ERROR"] :=
  ((C5_event_order "r1" "m1" "t1" "t2"
      (.error (ResearchAgentExc.agentExecutionError "Research agent error: boom" (some "q") 0))).2
    (ResearchAgentExc.agentExecutionError "Research agent error: boom" (some "q") 0) rfl).1

/-- C10: `RUN_STARTED` and `TEXT_MESSAGE_START` are the first two events of
every stream, identical whatever the loop outcome (they are emitted before
and independently of the research invocation) and are never content events;
a run whose loop fails still delivers both, followed by its single
`RUN_ERROR` and nothing else (a `TEXT_MESSAGE_START` with no matching
`TEXT_MESSAGE_END`); on a successful run the content events are exactly the
chunks of the completed report, whose deltas concatenate back to it — the
adapter chunks a completed report rather than streaming intermediate
progress. -/
theorem C10_prefix_then_chunks (runId messageId ts1 ts2 : String)
    (res res2 : Except ResearchAgentExc ResearchResult) :
    (aguiStream runId messageId ts1 ts2 res).take 2 =
      [AGUIEvent.runStarted runId ts1,
       AGUIEvent.textMessageStart messageId "assistant"] ∧
    (aguiStream runId messageId ts1 ts2 res).take 2 =
      (aguiStream runId messageId ts1 ts2 res2).take 2 ∧
    (∀ ev ∈ (aguiStream runId messageId ts1 ts2 res).take 2, ev.isContent = false) ∧
    (∀ e, res = .error e →
      aguiStream runId messageId ts1 ts2 res =
        [AGUIEvent.runStarted runId ts1,
         AGUIEvent.textMessageStart messageId "assistant",
         AGUIEvent.runError runId (strExc e) "AGENT_ERROR"] ∧
      ∀ ev ∈ aguiStream runId messageId ts1 ts2 res,
        ev.isContent = false ∧ ev.isMessageEnd = false) ∧
    (∀ r, res = .ok r →
      (aguiStream runId messageId ts1 ts2 res).filter (fun ev => ev.isContent) =
        chunkEvents messageId r.content ∧
      (chunkEvents messageId r.content).foldr (fun ev acc => ev.delta ++ acc) "" =
        r.content) := by
  have htake : ∀ res3 : Except ResearchAgentExc ResearchResult,
      (aguiStream runId messageId ts1 ts2 res3).take 2 =
        [AGUIEvent.runStarted runId ts1,
         AGUIEvent.textMessageStart messageId "assistant"] := by
    intro res3
    cases res3 <;> rfl
  refine ⟨htake res, (htake res).trans (htake res2).symm, ?_, ?_, ?_⟩
  · intro ev hev
    rw [htake res] at hev
    rcases List.mem_cons.mp hev with rfl | h
    · rfl
    · rcases List.mem_cons.mp h with rfl | h
      · rfl
      · cases h
  · rintro e rfl
    refine ⟨rfl, ?_⟩
    intro ev hev
    simp only [aguiStream, List.cons_append, List.nil_append, List.mem_cons,
      List.not_mem_nil, or_false] at hev
    rcases hev with rfl | rfl | rfl
    · exact ⟨rfl, rfl⟩
    · exact ⟨rfl, rfl⟩
    · exact ⟨rfl, rfl⟩
  · rintro r rfl
    have hall : (chunkEvents messageId r.content).filter (fun ev => ev.isContent) =
        chunkEvents messageId r.content := by
      apply List.filter_eq_self.mpr
      intro ev hev
      unfold chunkEvents at hev
      obtain ⟨c, _, rfl⟩ := List.mem_map.mp hev
      rfl
    refine ⟨?_, chunkEvents_concat messageId r.content⟩
    have h1 : aguiStream runId messageId ts1 ts2 (.ok r) =
        AGUIEvent.runStarted runId ts1 ::
        AGUIEvent.textMessageStart messageId "assistant" ::
        (chunkEvents messageId r.content ++
          [AGUIEvent.textMessageEnd messageId, AGUIEvent.runFinished runId ts2]) := rfl
    rw [h1, List.filter_cons_of_neg (by simp [AGUIEvent.isContent]),
      List.filter_cons_of_neg (by simp [AGUIEvent.isContent]), List.filter_append]
    have h2 : [AGUIEvent.textMessageEnd messageId,
        AGUIEvent.runFinished runId ts2].filter (fun ev => ev.isContent) = [] := rfl
    rw [h2, List.append_nil]
    exact hall

/-- C10 witness. -/
theorem C10_prefix_then_chunks_witness :
    aguiStream "r1" "m1" "t1" "t2"
        (.error (ResearchAgentExc.emptyResponseError "Agent produced empty output" (some "q") 0)) =
      [AGUIEvent.runStarted "r1" "t1",
       AGUIEvent.textMessageStart "m1" "assistant",
       AGUIEvent.runError "r1"
         (strExc (ResearchAgentExc.emptyResponseError "Agent produced empty output" (some "q") 0))
         "AGENT_ERROR"] :=
  ((C10_prefix_then_chunks "r1" "m1" "t1" "t2"
      (.error (ResearchAgentExc.emptyResponseError "Agent produced empty output" (some "q") 0))
      (.error (ResearchAgentExc.emptyResponseError "Agent produced empty output" (some "q") 0))).2.2.2.1
    (ResearchAgentExc.emptyResponseError "Agent produced empty output" (some "q") 0) rfl).1

/-- Injection of the in-process `agent.research` outcome into the endpoint's
input space (the endpoint distinguishes `ResearchAgentError` from any other
exception). -/
def liftAgentOutcome (o : Except ResearchAgentExc ResearchResult) :
    Except (Sum ResearchAgentExc PyExc) ResearchResult :=
  match o with
  | .ok r => .ok r
  | .error e => .error (Sum.inl e)

/-- C6: in blocking mode, every loop-level failure — any `ResearchAgentError`
raised by `agent.research`, including the empty-response and
bound-exceeded wrappings — is surfaced by the `/research` endpoint as a
returned `ResearchResponse` with `success = false` and an error message, not
as a raised fault. -/
theorem C6_blocking_failure_result (query : String) (e : ResearchAgentExc)
    (maxIterations : Nat) (oracle : Nat → OracleOutcome) :
    researchEndpoint query (.error (Sum.inl e)) =
      .ok { success := false, query := query, report := none, error := some (strExc e) } ∧
    (research maxIterations query oracle = .error e →
      researchEndpoint query (liftAgentOutcome (research maxIterations query oracle)) =
        .ok { success := false, query := query, report := none, error := some (strExc e) }) ∧
    (∀ resp, researchEndpoint query (.error (Sum.inl e)) = .ok resp →
      resp.success = false ∧ resp.error = some (strExc e)) := by
  refine ⟨rfl, ?_, ?_⟩
  · intro h
    rw [h]
    rfl
  · intro resp hresp
    cases hresp
    exact ⟨rfl, rfl⟩

/-- C6 witness. -/
theorem C6_blocking_failure_result_witness :
    researchEndpoint "q" (liftAgentOutcome
        (research 25 "q" (fun _ => OracleOutcome.raise (PyExc.otherException "boom") 0))) =
      .ok { success := false, query := "q", report := none,
            error := some (strExc (ResearchAgentExc.agentExecutionError
              "Research agent error: boom" (some "q") 0)) } :=
  (C6_blocking_failure_result "q"
      (ResearchAgentExc.agentExecutionError "Research agent error: boom" (some "q") 0)
      25 (fun _ => OracleOutcome.raise (PyExc.otherException "boom") 0)).2.1 rfl

theorem tavilySearch_never_raises (env : TavilyEnv) (query : String) (maxResults : Nat) :
    ∃ s, tavilySearch env query maxResults = .ok s := by
  unfold tavilySearch
  cases h : tavilySearchTry env query (min maxResults env.settings.searchMaxResults) with
  | ok s => exact ⟨s, rfl⟩
  | error e =>
    by_cases hs : e.isSPUE = true
    · exact ⟨"Tavily API key not configured. Use serpapi_search or web_search_ddg instead.",
        by simp [hs]⟩
    · exact ⟨"Tavily search error: " ++ e.str ++
        ". Try using serpapi_search or web_search_ddg instead.", by simp [hs]⟩

theorem serpapiSearch_never_raises (env : SerpapiEnv) (query : String) (maxResults : Nat) :
    ∃ s, serpapiSearch env query maxResults = .ok s := by
  unfold serpapiSearch
  cases h : serpapiSearchTry env query (min maxResults env.settings.searchMaxResults) with
  | ok s => exact ⟨s, rfl⟩
  | error e =>
    by_cases hi : e.isImportError = true
    · exact ⟨"SerpAPI package not installed. Run: pip install google-search-results",
        by simp [hi]⟩
    · by_cases hs : e.isSPUE = true
      · exact ⟨"SerpAPI key not configured. Use tavily_search or web_search_ddg instead.",
          by simp [hi, hs]⟩
      · exact ⟨"SerpAPI search error: " ++ e.str ++
          ". Try using tavily_search or web_search_ddg instead.", by simp [hi, hs]⟩

theorem ddgSearch_never_raises (env : DdgEnv) (query : String) (maxResults : Nat) :
    ∃ s, ddgSearch env query maxResults = .ok s := by
  unfold ddgSearch
  cases h : ddgSearchTry env query (min maxResults env.settings.searchMaxResults) with
  | ok s => exact ⟨s, rfl⟩
  | error e =>
    by_cases hi : e.isImportError = true
    · exact ⟨"DuckDuckGo search unavailable: " ++ e.str, by simp [hi]⟩
    · exact ⟨"DuckDuckGo search error: " ++ e.str ++
        ". Try using tavily_search or serpapi_search instead.", by simp [hi]⟩

/-- C8: each search provider adapter invocation returns a string and never
raises past the adapter boundary — a missing credential, a transient backend
error, and an empty result set each produce the human-readable textual
message of the source (the credential/error messages naming alternate
providers), never a propagated exception. -/
theorem C8_adapters_never_raise (tenv : TavilyEnv) (senv : SerpapiEnv) (denv : DdgEnv)
    (query : String) (maxResults : Nat) :
    (∃ s, tavilySearch tenv query maxResults = .ok s) ∧
    (∃ s, serpapiSearch senv query maxResults = .ok s) ∧
    (∃ s, ddgSearch denv query maxResults = .ok s) ∧
    (tenv.settings.hasTavily = false →
      tavilySearch tenv query maxResults =
        .ok "Tavily API key not configured. Use serpapi_search or web_search_ddg instead.") ∧
    (∀ e, tenv.settings.hasTavily = true → tenv.tavilyInstalled = true →
      tenv.searchResponse (min maxResults tenv.settings.searchMaxResults) = .error e →
      tavilySearch tenv query maxResults =
        .ok ("Tavily search error: " ++ e.str ++
          ". Try using serpapi_search or web_search_ddg instead.")) ∧
    (tenv.settings.hasTavily = true → tenv.tavilyInstalled = true →
      tenv.searchResponse (min maxResults tenv.settings.searchMaxResults) = .ok [] →
      tavilySearch tenv query maxResults =
        .ok ("No results found for: '" ++ query ++ "'. Try rephrasing your search query.")) ∧
    (denv.ddgsInstalled = true →
      denv.textResponse (min maxResults denv.settings.searchMaxResults) = .ok [] →
      ddgSearch denv query maxResults =
        .ok ("No results found for: '" ++ query ++ "'. Try rephrasing your search query.")) ∧
    (∀ msg, denv.ddgsInstalled = true →
      denv.textResponse (min maxResults denv.settings.searchMaxResults) =
        .error (PyExc.otherException msg) →
      ddgSearch denv query maxResults =
        .ok ("DuckDuckGo search error: " ++ msg ++
          ". Try using tavily_search or serpapi_search instead.")) ∧
    (senv.serpapiInstalled = true → senv.settings.hasSerpapi = false →
      serpapiSearch senv query maxResults =
        .ok "SerpAPI key not configured. Use tavily_search or web_search_ddg instead.") := by
  refine ⟨tavilySearch_never_raises tenv query maxResults,
    serpapiSearch_never_raises senv query maxResults,
    ddgSearch_never_raises denv query maxResults, ?_, ?_, ?_, ?_, ?_, ?_⟩
  · intro h
    unfold tavilySearch tavilySearchTry getTavilyClient
    simp [h, Raised.isSPUE, isSearchProviderUnavailableError]
  · intro e h1 h2 h3
    unfold tavilySearch tavilySearchTry getTavilyClient
    rw [h3] at *
    simp [h1, h2, h3, Raised.isSPUE, Raised.str, isSearchProviderUnavailableError]
  · intro h1 h2 h3
    unfold tavilySearch tavilySearchTry getTavilyClient
    simp [h1, h2, h3]
  · intro h1 h2
    unfold ddgSearch ddgSearchTry
    simp [h1, h2]
  · intro msg h1 h2
    unfold ddgSearch ddgSearchTry
    simp [h1, h2, Raised.isImportError, Raised.str, PyExc.str]
  · intro h1 h2
    unfold serpapiSearch serpapiSearchTry
    simp [h1, h2, Raised.isImportError, Raised.isSPUE, isSearchProviderUnavailableError]

/-- C8 witness: an unconfigured-Tavily environment with an erroring DDG
backend still returns strings from every adapter. -/
theorem C8_adapters_never_raise_witness :
    tavilySearch ⟨⟨none, none, 25, 5⟩, true, fun _ => .ok []⟩ "q" 5 =
      .ok "Tavily API key not configured. Use serpapi_search or web_search_ddg instead." :=
  (C8_adapters_never_raise ⟨⟨none, none, 25, 5⟩, true, fun _ => .ok []⟩
      ⟨⟨none, none, 25, 5⟩, true, fun _ => .ok []⟩
      ⟨⟨none, none, 25, 5⟩, true, fun _ => .ok []⟩ "q" 5).2.2.2.1 rfl

/-- C9: for every `max_results` at or above the configured cap, each adapter
behaves exactly as if the cap itself had been requested (the silent clamp
`max_results = min(max_results, settings.search_max_results)`), and the
formatted result count is bounded by the cap: `serpapi_search` truncates
`organic_results[:max_results]` unconditionally, and `tavily_search` formats
every backend result, so its count is capped whenever the backend honours the
clamped request size. -/
theorem C9_clamp_to_cap (tenv : TavilyEnv) (senv : SerpapiEnv) (denv : DdgEnv)
    (query : String) (n : Nat) :
    (tenv.settings.searchMaxResults ≤ n →
      tavilySearch tenv query n =
        tavilySearch tenv query tenv.settings.searchMaxResults) ∧
    (senv.settings.searchMaxResults ≤ n →
      serpapiSearch senv query n =
        serpapiSearch senv query senv.settings.searchMaxResults) ∧
    (denv.settings.searchMaxResults ≤ n →
      ddgSearch denv query n =
        ddgSearch denv query denv.settings.searchMaxResults) ∧
    (∀ organic : List SerpResult,
      (serpapiEntries (min n senv.settings.searchMaxResults) organic).length ≤
        senv.settings.searchMaxResults) ∧
    (∀ results : List TavilyResult,
      results.length ≤ min n tenv.settings.searchMaxResults →
      (tavilyEntries results).length ≤ tenv.settings.searchMaxResults) := by
  refine ⟨?_, ?_, ?_, ?_, ?_⟩
  · intro h
    unfold tavilySearch
    rw [Nat.min_eq_right h, Nat.min_self]
  · intro h
    unfold serpapiSearch
    rw [Nat.min_eq_right h, Nat.min_self]
  · intro h
    unfold ddgSearch
    rw [Nat.min_eq_right h, Nat.min_self]
  · intro organic
    unfold serpapiEntries
    rw [List.length_mapIdx, List.length_take]
    omega
  · intro results h
    unfold tavilyEntries
    rw [List.length_mapIdx]
    omega

/-- C9 witness: requesting 100 results against a cap of 5 behaves as a
request for 5. -/
theorem C9_clamp_to_cap_witness :
    tavilySearch ⟨⟨none, none, 25, 5⟩, true, fun _ => .ok []⟩ "q" 100 =
      tavilySearch ⟨⟨none, none, 25, 5⟩, true, fun _ => .ok []⟩ "q" 5 :=
  (C9_clamp_to_cap ⟨⟨none, none, 25, 5⟩, true, fun _ => .ok []⟩
      ⟨⟨none, none, 25, 5⟩, true, fun _ => .ok []⟩
      ⟨⟨none, none, 25, 5⟩, true, fun _ => .ok []⟩ "q" 100).1 (by decide)

end ResearchAgent
